import Mathlib

/-!
Verification of `generate_env.py`, a one-shot utility that generates random
secrets and signed tokens and substitutes them into a `.env` template.

Lines of text are modelled as `List Char`; bytes as `Nat` (values < 256);
randomness (`secrets.choice`) as an explicit index oracle `Nat → Nat`;
the current Unix time (`time.time()`) as an explicit `now : Int` parameter.
-/

/-- Convert a string literal to the `List Char` representation used throughout. -/
def chars (s : String) : List Char := s.data

/-! ## Random string generation (`generate_random_string`, lines 9-16) -/

/-- `string.ascii_letters` (lowercase then uppercase). -/
def ascii_letters : List Char :=
  chars "abcdefghijklmnopqrstuvwxyzABCDEFGHIJKLMNOPQRSTUVWXYZ"

/-- `string.digits`. -/
def digits : List Char := chars "0123456789"

/-- The literal `safe_special` string from line 14 of the source. -/
def safe_special : List Char := chars "!@#$%^&*()-_=+[]\x7b\x7d|;:,.<>?"

/-- The alphabet built at lines 11-15: letters and digits, extended by
`safe_special` when `include_special` is set. -/
def alphabet (include_special : Bool) : List Char :=
  ascii_letters ++ digits ++ (if include_special then safe_special else [])

/-- `secrets.choice a`, with the random draw modelled as an arbitrary natural
number reduced modulo the alphabet size; always returns a member of a
nonempty list. -/
def choice (a : List Char) (x : Nat) : Char := a.getD (x % a.length) 'a'

/-- `generate_random_string(length, include_special)` (lines 9-16).
`r i` is the random draw used for position `i`; the Python `range(length)`
is empty for non-positive `length`, hence `Int.toNat`. -/
def generate_random_string (length : Int) (include_special : Bool)
    (r : Nat → Nat) : List Char :=
  (List.range length.toNat).map (fun i => choice (alphabet include_special) (r i))

/-! ## Template substitution (`create_env_file`, lines 70-95) -/

/-- The whitespace characters removed by Python `str.strip()` (ASCII part). -/
def pySpace (c : Char) : Bool :=
  c = ' ' || c = '\t' || c = '\n' || c = '\x0d' || c = '\x0b' || c = '\x0c'

/-- Python `line.strip()`: drop leading and trailing whitespace. -/
def pyStrip (l : List Char) : List Char :=
  ((l.dropWhile pySpace).reverse.dropWhile pySpace).reverse

/-- The per-line body of the loop at lines 80-91: strip the line; keep blank
and comment lines; otherwise replace the first `key=`-matching key's line by
`key=value` (first match wins, as the Python loop does `break`), and keep the
line if no key matches. -/
def processLine (env_values : List (List Char × List Char)) (line : List Char) :
    List Char :=
  if pyStrip line = [] ∨ (pyStrip line).head? = some '#' then pyStrip line
  else
    match env_values.find? (fun kv => (kv.1 ++ ['=']).isPrefixOf (pyStrip line)) with
    | some kv => kv.1 ++ '=' :: kv.2
    | none => pyStrip line

/-- Error kinds `create_env_file` can surface: the explicit
`FileNotFoundError` raised at line 73, and other I/O failures. -/
inductive PyError where
  | fileNotFound
  | ioError
deriving DecidableEq

/-- `create_env_file(env_values)` (lines 70-95). The template file is modelled
as `Option (List (List Char))`: `none` when `.env.example` does not exist.
On success the result is the list of lines written to `.env` (joined by
newlines at line 95); on `Except.error` nothing is written. -/
def create_env_file (template : Option (List (List Char)))
    (env_values : List (List Char × List Char)) :
    Except PyError (List (List Char)) :=
  match template with
  | none => .error .fileNotFound
  | some ls => .ok (ls.map (processLine env_values))

/-! ## SHA-256 over byte lists (bytes are `Nat` values < 256)

`jwt.encode` is a PyJWT library call, not repository code; the token
construction below is modelled from the spec (§4.2): HMAC-SHA256 over the
base64url-encoded header and payload, in compact three-part serialization. -/

def M32 : Nat := 4294967296

def add32 (a b : Nat) : Nat := (a + b) % M32

def rotr32 (n x : Nat) : Nat := (x / 2 ^ n + x % 2 ^ n * 2 ^ (32 - n)) % M32

def shr32 (n x : Nat) : Nat := x / 2 ^ n

def not32 (x : Nat) : Nat := 4294967295 - x % M32

def ch32 (x y z : Nat) : Nat := (x &&& y) ^^^ (not32 x &&& z)

def maj32 (x y z : Nat) : Nat := (x &&& y) ^^^ (x &&& z) ^^^ (y &&& z)

def bigSigma0 (x : Nat) : Nat := rotr32 2 x ^^^ rotr32 13 x ^^^ rotr32 22 x

def bigSigma1 (x : Nat) : Nat := rotr32 6 x ^^^ rotr32 11 x ^^^ rotr32 25 x

def smallSigma0 (x : Nat) : Nat := rotr32 7 x ^^^ rotr32 18 x ^^^ shr32 3 x

def smallSigma1 (x : Nat) : Nat := rotr32 17 x ^^^ rotr32 19 x ^^^ shr32 10 x

def K256 : List Nat :=
  [1116352408, 1899447441, 3049323471, 3921009573, 961987163,
   1508970993, 2453635748, 2870763221, 3624381080, 310598401,
   607225278, 1426881987, 1925078388, 2162078206, 2614888103,
   3248222580, 3835390401, 4022224774, 264347078, 604807628,
   770255983, 1249150122, 1555081692, 1996064986, 2554220882,
   2821834349, 2952996808, 3210313671, 3336571891, 3584528711,
   113926993, 338241895, 666307205, 773529912, 1294757372,
   1396182291, 1695183700, 1986661051, 2177026350, 2456956037,
   2730485921, 2820302411, 3259730800, 3345764771, 3516065817,
   3600352804, 4094571909, 275423344, 430227734, 506948616,
   659060556, 883997877, 958139571, 1322822218, 1537002063,
   1747873779, 1955562222, 2024104815, 2227730452, 2361852424,
   2428436474, 2756734187, 3204031479, 3329325298]

def H256 : List Nat :=
  [1779033703, 3144134277, 1013904242, 2773480762,
   1359893119, 2600822924, 528734635, 1541459225]

def be32 (n : Nat) : List Nat :=
  [n / 16777216 % 256, n / 65536 % 256, n / 256 % 256, n % 256]

def be64 (n : Nat) : List Nat :=
  [n / 2 ^ 56 % 256, n / 2 ^ 48 % 256, n / 2 ^ 40 % 256, n / 2 ^ 32 % 256,
   n / 2 ^ 24 % 256, n / 2 ^ 16 % 256, n / 2 ^ 8 % 256, n % 256]

def toWords32 : List Nat → List Nat
  | a :: b :: c :: d :: rest =>
    (a * 16777216 + b * 65536 + c * 256 + d) :: toWords32 rest
  | _ => []

def extendSchedule : List Nat → Nat → List Nat
  | w, 0 => w
  | w, n + 1 =>
    extendSchedule
      (w ++ [add32 (add32 (smallSigma1 (w.getD (w.length - 2) 0))
                          (w.getD (w.length - 7) 0))
                   (add32 (smallSigma0 (w.getD (w.length - 15) 0))
                          (w.getD (w.length - 16) 0))]) n

def compressStep (st : List Nat) (kw : Nat × Nat) : List Nat :=
  match st with
  | [a, b, c, d, e, f, g, h] =>
    let t1 := add32 h (add32 (bigSigma1 e) (add32 (ch32 e f g) (add32 kw.1 kw.2)))
    let t2 := add32 (bigSigma0 a) (maj32 a b c)
    [add32 t1 t2, a, b, c, add32 d t1, e, f, g]
  | other => other

def sha256Chunk (h : List Nat) (chunk : List Nat) : List Nat :=
  let w := extendSchedule (toWords32 chunk) 48
  let st := (K256.zip w).foldl compressStep h
  (h.zip st).map (fun p => add32 p.1 p.2)

def chunks64 (l : List Nat) : List (List Nat) :=
  if h : l = [] then [] else l.take 64 :: chunks64 (l.drop 64)
termination_by l.length
decreasing_by
  simp [List.length_drop]
  have hp : 0 < l.length := List.length_pos.mpr h
  omega

def sha256 (msg : List Nat) : List Nat :=
  let padded := msg ++ 128 :: List.replicate ((119 - msg.length % 64) % 64) 0
    ++ be64 (msg.length * 8)
  (((chunks64 padded).foldl sha256Chunk H256).map be32).flatten

def hmacSha256 (key msg : List Nat) : List Nat :=
  let k1 := if 64 < key.length then sha256 key else key
  let k0 := k1 ++ List.replicate (64 - k1.length) 0
  sha256 ((k0.map (fun b => b ^^^ 92)) ++ sha256 ((k0.map (fun b => b ^^^ 54)) ++ msg))

/-! ## base64url (no padding), UTF-8 and compact JSON encoding -/

def b64Table : List Char :=
  chars "ABCDEFGHIJKLMNOPQRSTUVWXYZabcdefghijklmnopqrstuvwxyz0123456789-_"

def b64Char (n : Nat) : Char := b64Table.getD n 'A'

def base64urlEncode : List Nat → List Char
  | [] => []
  | [a] => [b64Char (a / 4), b64Char (a % 4 * 16)]
  | [a, b] => [b64Char (a / 4), b64Char (a % 4 * 16 + b / 16), b64Char (b % 16 * 4)]
  | a :: b :: c :: rest =>
    b64Char (a / 4) :: b64Char (a % 4 * 16 + b / 16) ::
      b64Char (b % 16 * 4 + c / 64) :: b64Char (c % 64) :: base64urlEncode rest

def utf8Char (c : Char) : List Nat :=
  if c.toNat < 128 then [c.toNat]
  else if c.toNat < 2048 then [192 + c.toNat / 64, 128 + c.toNat % 64]
  else if c.toNat < 65536 then
    [224 + c.toNat / 4096, 128 + c.toNat / 64 % 64, 128 + c.toNat % 64]
  else
    [240 + c.toNat / 262144, 128 + c.toNat / 4096 % 64,
     128 + c.toNat / 64 % 64, 128 + c.toNat % 64]

def utf8 (l : List Char) : List Nat := (l.map utf8Char).flatten

def hexDigit (n : Nat) : Char := (chars "0123456789abcdef").getD n '0'

def hex4 (n : Nat) : List Char :=
  [hexDigit (n / 4096 % 16), hexDigit (n / 256 % 16),
   hexDigit (n / 16 % 16), hexDigit (n % 16)]

/-- JSON string escaping as `json.dumps` does with `ensure_ascii` (quote,
backslash, the short control escapes, `\uXXXX` for other control and all
non-ASCII characters, surrogate pairs beyond the BMP). -/
def jsonEscapeChar (c : Char) : List Char :=
  if c = '"' then chars "\\\""
  else if c = '\\' then chars "\\\\"
  else if c = '\n' then chars "\\n"
  else if c = '\t' then chars "\\t"
  else if c = '\x0d' then chars "\\r"
  else if c = '\x08' then chars "\\b"
  else if c = '\x0c' then chars "\\f"
  else if c.toNat < 32 ∨ (127 ≤ c.toNat ∧ c.toNat < 65536) then
    chars "\\u" ++ hex4 c.toNat
  else if 65536 ≤ c.toNat then
    chars "\\u" ++ hex4 (55296 + (c.toNat - 65536) / 1024) ++
    chars "\\u" ++ hex4 (56320 + (c.toNat - 65536) % 1024)
  else [c]

def jsonEscape (l : List Char) : List Char := (l.map jsonEscapeChar).flatten

def intChars (i : Int) : List Char := (toString i).data

/-! ## The token signer (`generate_jwt`, lines 22-31) -/

structure JwtPayload where
  role : List Char
  iss : List Char
  iat : Int
  exp : Int

/-- Modelled from the spec (§4.2): the JOSE header JSON, compactly
serialized. -/
def headerJson : List Char := chars "\x7b\"alg\":\"HS256\",\"typ\":\"JWT\"\x7d"

/-- Modelled from the spec (§4.2): compact JSON serialization of the claims
object, keys in dict insertion order (`role`, `iss`, `iat`, `exp`). -/
def payloadJson (p : JwtPayload) : List Char :=
  chars "\x7b\"role\":\"" ++ jsonEscape p.role ++
  chars "\",\"iss\":\"" ++ jsonEscape p.iss ++
  chars "\",\"iat\":" ++ intChars p.iat ++
  chars ",\"exp\":" ++ intChars p.exp ++ chars "\x7d"

def jwtSigningInput (p : JwtPayload) : List Char :=
  base64urlEncode (utf8 headerJson) ++ '.' :: base64urlEncode (utf8 (payloadJson p))

/-- Modelled from the spec (§4.2): `jwt.encode(payload, secret,
algorithm="HS256")` from the PyJWT library — the three-part dot-separated
compact serialization, signed with HMAC-SHA256 over `header.payload`. -/
def jwtEncode (p : JwtPayload) (secret : List Char) : List Char :=
  jwtSigningInput p ++ '.' ::
    base64urlEncode (hmacSha256 (utf8 secret) (utf8 (jwtSigningInput p)))

/-- The payload dict built at lines 24-30 of the source; `now` models
`int(time.time())`. -/
def generate_jwt_payload (role : List Char) (exp_hours now : Int) : JwtPayload :=
  ⟨role, chars "supabase", now, now + exp_hours * 3600⟩

/-- `generate_jwt(jwt_secret, role, exp_hours)` (lines 22-31); the source
defaults are `role="service_role"`, `exp_hours=168`. -/
def generate_jwt (jwt_secret : List Char) (role : List Char := chars "service_role")
    (exp_hours : Int := 168) (now : Int := 0) : List Char :=
  jwtEncode (generate_jwt_payload role exp_hours now) jwt_secret

/-- `generate_jwt_secret(length)` (lines 18-20): a random string without
special characters. -/
def generate_jwt_secret (length : Int) (r : Nat → Nat) : List Char :=
  generate_random_string length false r

/-! ## The value-set builder (`generate_env_values`, lines 33-68)

`r k` is the randomness consumed by the `k`-th call to the random string
generator, in the source's evaluation order: the JWT secret is generated
first (line 36), then the dict entries top to bottom. -/

def generate_env_values (now : Int) (r : Nat → Nat → Nat) :
    List (List Char × List Char) :=
  let jwt_secret := generate_jwt_secret 40 (r 0)
  [(chars "N8N_ENCRYPTION_KEY", generate_random_string 40 false (r 1)),
   (chars "N8N_USER_MANAGEMENT_JWT_SECRET", generate_random_string 40 false (r 2)),
   (chars "POSTGRES_PASSWORD", generate_random_string 32 true (r 3)),
   (chars "JWT_SECRET", jwt_secret),
   (chars "ANON_KEY", generate_jwt jwt_secret (chars "anon") 168 now),
   (chars "SERVICE_ROLE_KEY", generate_jwt jwt_secret (chars "service_role") 168 now),
   (chars "DASHBOARD_USERNAME", chars "admin"),
   (chars "DASHBOARD_PASSWORD", generate_random_string 16 true (r 4)),
   (chars "POOLER_TENANT_ID", generate_random_string 20 false (r 5)),
   (chars "VAULT_ENC_KEY", generate_random_string 40 false (r 6)),
   (chars "SECRET_KEY_BASE", generate_random_string 64 false (r 7)),
   (chars "LOGFLARE_LOGGER_BACKEND_API_KEY", generate_random_string 40 false (r 8)),
   (chars "LOGFLARE_API_KEY", generate_random_string 40 false (r 9)),
   (chars "SMTP_ADMIN_EMAIL", chars "admin@yourdomain.com"),
   (chars "SMTP_USER", generate_random_string 12 false (r 10)),
   (chars "SMTP_PASS", generate_random_string 16 true (r 11)),
   (chars "SMTP_SENDER_NAME", chars "Supabase Admin")]

/-- Split a character list at every occurrence of `c` (like
`String.split`); used to state the three-part dot-separated shape of a
token. -/
def splitOnChar (c : Char) (l : List Char) : List (List Char) :=
  match l with
  | [] => [[]]
  | x :: xs =>
    if x = c then [] :: splitOnChar c xs
    else
      match splitOnChar c xs with
      | [] => [[x]]
      | y :: ys => (x :: y) :: ys

/-! ## Lemmas about `pyStrip` -/

lemma dropWhile_pySpace_eq_self (l : List Char)
    (h : ∀ a, l.head? = some a → pySpace a = false) :
    l.dropWhile pySpace = l := by
  cases l with
  | nil => rfl
  | cons a t => simp [List.dropWhile_cons, h a rfl]

lemma head_dropWhile_pySpace (l : List Char) (a : Char)
    (h : (l.dropWhile pySpace).head? = some a) : pySpace a = false := by
  induction l with
  | nil => simp at h
  | cons b t ih =>
    by_cases hb : pySpace b
    · rw [List.dropWhile_cons, if_pos hb] at h
      exact ih h
    · rw [List.dropWhile_cons, if_neg hb] at h
      simp at h
      rw [← h]
      simpa using hb

lemma getLast_dropWhile_pySpace (l : List Char)
    (h : l.dropWhile pySpace ≠ []) :
    (l.dropWhile pySpace).getLast? = l.getLast? := by
  induction l with
  | nil => simp at h
  | cons a t ih =>
    by_cases ha : pySpace a
    · rw [List.dropWhile_cons, if_pos ha] at h ⊢
      have ht : t ≠ [] := by
        intro he
        rw [he] at h
        exact h rfl
      cases t with
      | nil => exact absurd rfl ht
      | cons b t2 => rw [List.getLast?_cons_cons, ih h]
    · rw [List.dropWhile_cons, if_neg ha]

lemma pyStrip_head (l : List Char) (a : Char)
    (h : (pyStrip l).head? = some a) : pySpace a = false := by
  unfold pyStrip at h
  rw [List.head?_reverse] at h
  have hne : (l.dropWhile pySpace).reverse.dropWhile pySpace ≠ [] := by
    intro he
    rw [he] at h
    simp at h
  rw [getLast_dropWhile_pySpace _ hne, List.getLast?_reverse] at h
  exact head_dropWhile_pySpace l a h

lemma pyStrip_last (l : List Char) (a : Char)
    (h : (pyStrip l).getLast? = some a) : pySpace a = false := by
  unfold pyStrip at h
  rw [List.getLast?_reverse] at h
  exact head_dropWhile_pySpace (l.dropWhile pySpace).reverse a h

lemma pyStrip_eq_self (l : List Char)
    (h1 : ∀ a, l.head? = some a → pySpace a = false)
    (h2 : ∀ a, l.getLast? = some a → pySpace a = false) :
    pyStrip l = l := by
  unfold pyStrip
  rw [dropWhile_pySpace_eq_self l h1]
  rw [dropWhile_pySpace_eq_self l.reverse
    (fun a ha => h2 a (by rwa [List.head?_reverse] at ha))]
  exact List.reverse_reverse l

lemma pyStrip_idem (l : List Char) : pyStrip (pyStrip l) = pyStrip l :=
  pyStrip_eq_self _ (pyStrip_head l) (pyStrip_last l)

lemma mem_of_getLast_some (l : List Char) (a : Char)
    (h : l.getLast? = some a) : a ∈ l := by
  induction l with
  | nil => simp at h
  | cons b t ih =>
    cases t with
    | nil =>
      simp at h
      simp [h]
    | cons c t2 =>
      rw [List.getLast?_cons_cons] at h
      exact List.mem_cons_of_mem b (ih h)

lemma pyStrip_eq_self_of_all (l : List Char)
    (h : ∀ c ∈ l, pySpace c = false) : pyStrip l = l := by
  refine pyStrip_eq_self l (fun a ha => ?_) (fun a ha => ?_)
  · cases l with
    | nil => simp at ha
    | cons b t =>
      simp at ha
      exact h a (by simp [ha])
  · exact h a (mem_of_getLast_some l a ha)

/-! ## Lemmas about the random alphabet -/

lemma alphabet_ne_nil (b : Bool) : alphabet b ≠ [] := by
  cases b <;> decide

lemma choice_mem (a : List Char) (h : a ≠ []) (x : Nat) : choice a x ∈ a := by
  unfold choice
  have hl : 0 < a.length := List.length_pos.mpr h
  have hx : x % a.length < a.length := Nat.mod_lt _ hl
  rw [List.getD_eq_getElem?_getD, List.getElem?_eq_getElem hx]
  exact List.getElem_mem hx

lemma generate_random_string_mem (length : Int) (include_special : Bool)
    (r : Nat → Nat) :
    ∀ c ∈ generate_random_string length include_special r,
      c ∈ alphabet include_special := by
  intro c hc
  unfold generate_random_string at hc
  rw [List.mem_map] at hc
  obtain ⟨i, _, hi⟩ := hc
  rw [← hi]
  exact choice_mem _ (alphabet_ne_nil include_special) _


/-! ## Lemmas about base64url encoding and dot-splitting -/

lemma getD_mem_or_eq (l : List Char) (n : Nat) (d : Char) :
    l.getD n d ∈ l ∨ l.getD n d = d := by
  by_cases h : n < l.length
  · left
    rw [List.getD_eq_getElem?_getD, List.getElem?_eq_getElem h]
    exact List.getElem_mem h
  · right
    rw [List.getD_eq_getElem?_getD, List.getElem?_eq_none (by omega)]
    rfl

lemma b64Char_mem_table (n : Nat) : b64Char n ∈ b64Table := by
  rcases getD_mem_or_eq b64Table n 'A' with h | h
  · exact h
  · rw [b64Char, h]
    decide

lemma mem_base64_mem_table : ∀ (l : List Nat), ∀ c ∈ base64urlEncode l, c ∈ b64Table
  | [], c, hc => by simp [base64urlEncode] at hc
  | [a], c, hc => by
    simp [base64urlEncode] at hc
    rcases hc with rfl | rfl <;> exact b64Char_mem_table _
  | [a, b], c, hc => by
    simp [base64urlEncode] at hc
    rcases hc with rfl | rfl | rfl <;> exact b64Char_mem_table _
  | a :: b :: d :: rest, c, hc => by
    simp only [base64urlEncode, List.mem_cons] at hc
    rcases hc with rfl | rfl | rfl | rfl | hc
    · exact b64Char_mem_table _
    · exact b64Char_mem_table _
    · exact b64Char_mem_table _
    · exact b64Char_mem_table _
    · exact mem_base64_mem_table rest c hc

lemma dot_not_mem_base64 (l : List Nat) : '.' ∉ base64urlEncode l := by
  intro h
  have := mem_base64_mem_table l '.' h
  revert this
  decide

lemma splitOnChar_of_not_mem (c : Char) (a : List Char) (ha : c ∉ a) :
    splitOnChar c a = [a] := by
  induction a with
  | nil => rfl
  | cons x t ih =>
    have hx : ¬ x = c := fun he => ha (by simp [he])
    have ht : c ∉ t := fun hm => ha (List.mem_cons_of_mem x hm)
    simp [splitOnChar, hx, ih ht]

lemma splitOnChar_append (c : Char) (a b : List Char) (ha : c ∉ a) :
    splitOnChar c (a ++ c :: b) = a :: splitOnChar c b := by
  induction a with
  | nil => simp [splitOnChar]
  | cons x t ih =>
    have hx : ¬ x = c := fun he => ha (by simp [he])
    have ht : c ∉ t := fun hm => ha (List.mem_cons_of_mem x hm)
    simp [splitOnChar, hx, ih ht]

/-! ## Whitespace-freeness of the generated values -/

lemma alphabet_no_space (b : Bool) : ∀ c ∈ alphabet b, pySpace c = false := by
  cases b <;> decide

lemma random_string_stripped (length : Int) (b : Bool) (rr : Nat → Nat) :
    pyStrip (generate_random_string length b rr) = generate_random_string length b rr :=
  pyStrip_eq_self_of_all _
    (fun c hc => alphabet_no_space b c (generate_random_string_mem length b rr c hc))

lemma table_no_space : ∀ c ∈ b64Table, pySpace c = false := by decide

lemma mem_generate_jwt (jwt_secret role : List Char) (exp_hours now : Int) (c : Char)
    (hc : c ∈ generate_jwt jwt_secret role exp_hours now) :
    c ∈ b64Table ∨ c = '.' := by
  rw [generate_jwt, jwtEncode, jwtSigningInput] at hc
  simp only [List.mem_append, List.mem_cons, List.append_assoc, List.cons_append] at hc
  rcases hc with hc | rfl | hc | rfl | hc
  · exact .inl (mem_base64_mem_table _ c hc)
  · exact .inr rfl
  · exact .inl (mem_base64_mem_table _ c hc)
  · exact .inr rfl
  · exact .inl (mem_base64_mem_table _ c hc)

lemma generate_jwt_stripped (jwt_secret role : List Char) (exp_hours now : Int) :
    pyStrip (generate_jwt jwt_secret role exp_hours now) =
      generate_jwt jwt_secret role exp_hours now := by
  apply pyStrip_eq_self_of_all
  intro c hc
  rcases mem_generate_jwt jwt_secret role exp_hours now c hc with h | rfl
  · exact table_no_space c h
  · decide

lemma generate_env_values_stripped (now : Int) (r : Nat → Nat → Nat) :
    ∀ kv ∈ generate_env_values now r, pyStrip kv.2 = kv.2 := by
  intro kv hkv
  simp only [generate_env_values, List.mem_cons, List.not_mem_nil, or_false] at hkv
  rcases hkv with rfl | rfl | rfl | rfl | rfl | rfl | rfl | rfl | rfl | rfl | rfl |
    rfl | rfl | rfl | rfl | rfl | rfl
  · exact random_string_stripped _ _ _
  · exact random_string_stripped _ _ _
  · exact random_string_stripped _ _ _
  · exact random_string_stripped _ _ _
  · exact generate_jwt_stripped _ _ _ _
  · exact generate_jwt_stripped _ _ _ _
  · decide
  · exact random_string_stripped _ _ _
  · exact random_string_stripped _ _ _
  · exact random_string_stripped _ _ _
  · exact random_string_stripped _ _ _
  · exact random_string_stripped _ _ _
  · exact random_string_stripped _ _ _
  · decide
  · exact random_string_stripped _ _ _
  · exact random_string_stripped _ _ _
  · decide

/-! ## Output lines of the substitution are whitespace-stripped -/

lemma processLine_stripped (env_values : List (List Char × List Char))
    (line : List Char)
    (hv : ∀ kv ∈ env_values, pyStrip kv.2 = kv.2) :
    pyStrip (processLine env_values line) = processLine env_values line := by
  rw [processLine]
  by_cases hb : pyStrip line = [] ∨ (pyStrip line).head? = some '#'
  · rw [if_pos hb]
    exact pyStrip_idem line
  · rw [if_neg hb]
    cases hf : env_values.find? (fun kv => (kv.1 ++ ['=']).isPrefixOf (pyStrip line)) with
    | none => exact pyStrip_idem line
    | some kv =>
      have hkv_mem : kv ∈ env_values := List.mem_of_find?_eq_some hf
      have hpre : kv.1 ++ ['='] <+: pyStrip line := by
        have hpred := List.find?_some hf
        simp only [] at hpred
        rwa [List.isPrefixOf_iff_prefix] at hpred
      show pyStrip (kv.1 ++ '=' :: kv.2) = kv.1 ++ '=' :: kv.2
      apply pyStrip_eq_self
      · intro a ha
        cases hk : kv.1 with
        | nil =>
          rw [hk] at ha
          simp at ha
          rw [← ha]
          decide
        | cons k0 kt =>
          rw [hk] at ha
          simp at ha
          obtain ⟨t2, ht2⟩ := hpre
          have hhead : (pyStrip line).head? = some k0 := by
            rw [← ht2, hk]
            simp
          rw [← ha]
          exact pyStrip_head line k0 hhead
      · intro a ha
        cases hk2 : kv.2 with
        | nil =>
          rw [hk2] at ha
          have : (kv.1 ++ '=' :: ([] : List Char)).getLast? = some '=' :=
            List.getLast?_concat kv.1
          rw [this] at ha
          simp at ha
          rw [← ha]
          decide
        | cons v0 vt =>
          have hlast : (kv.1 ++ '=' :: kv.2).getLast? = kv.2.getLast? := by
            rw [List.getLast?_append_of_ne_nil kv.1 (by simp)]
            rw [hk2, List.getLast?_cons_cons]
          rw [hk2] at hlast
          rw [hk2, hlast] at ha
          have hv2 := hv kv hkv_mem
          rw [hk2] at hv2
          apply pyStrip_last (v0 :: vt) a
          rw [hv2]
          exact ha

/-! ## The claims -/

/-- C1: template substitution is a pure function of the template content and
the value mapping: on the template `["# comment","FOO=old","BAR=old",
"BAZ=unchanged"]` with mapping `{FOO: "new1", BAR: "new2"}` the processed
line sequence is exactly `["# comment","FOO=new1","BAR=new2","BAZ=unchanged"]`:
the comment passes through, known keys are replaced with the old tail
discarded, unknown keys are kept. -/
theorem c1_template_substitution_example :
    create_env_file
      (some [chars "# comment", chars "FOO=old", chars "BAR=old",
        chars "BAZ=unchanged"])
      [(chars "FOO", chars "new1"), (chars "BAR", chars "new2")] =
    .ok [chars "# comment", chars "FOO=new1", chars "BAR=new2",
      chars "BAZ=unchanged"] := rfl

/-- C2 counterexample: the claim says the extended alphabet contains no `'='`,
but `safe_special` at line 14 of the source contains `'='`, so a generated
string of positive length can consist of `'='`: the draw with index 74 picks
it. -/
theorem c2_counterexample :
    (0 : Int) < 1 ∧ '=' ∈ generate_random_string 1 true (fun _ => 74) := by
  decide

/-- C2 as amended: the extended alphabet does contain `'='`, but no newline
and no quote characters, so every character of a string generated with the
special-characters flag is distinct from `'\n'`, `'\x27'` and `'"'` (though
possibly equal to `'='`). -/
theorem c2_special_alphabet_no_newline_or_quotes (length : Int) (r : Nat → Nat)
    (c : Char) (hc : c ∈ generate_random_string length true r) :
    c ≠ '\n' ∧ c ≠ '\x27' ∧ c ≠ '"' := by
  have h := generate_random_string_mem length true r c hc
  have hall : ∀ x ∈ alphabet true, x ≠ '\n' ∧ x ≠ '\x27' ∧ x ≠ '"' := by decide
  exact hall c h

/-- Witness for the amended C2 at a concrete input. -/
theorem c2_witness :
    'a' ∈ generate_random_string 1 true (fun _ => 0) ∧
    'a' ≠ '\n' ∧ 'a' ≠ '\x27' ∧ 'a' ≠ '"' :=
  ⟨by decide, c2_special_alphabet_no_newline_or_quotes 1 (fun _ => 0) 'a' (by decide)⟩

/-- C3: for every positive length and both flag settings, the generated
string has exactly the requested length and every character belongs to the
alphabet of letters and digits, extended by the special set when the flag is
set. -/
theorem c3_random_string_length_alphabet (length : Int) (h : 0 < length)
    (include_special : Bool) (r : Nat → Nat) :
    ((generate_random_string length include_special r).length : Int) = length ∧
    ∀ c ∈ generate_random_string length include_special r,
      c ∈ alphabet include_special := by
  constructor
  · rw [generate_random_string, List.length_map, List.length_range]
    exact Int.toNat_of_nonneg h.le
  · exact generate_random_string_mem length include_special r

/-- Witness for C3 at a concrete input. -/
theorem c3_witness :
    (0 : Int) < 5 ∧
    (((generate_random_string 5 false (fun n => n)).length : Int) = 5 ∧
      ∀ c ∈ generate_random_string 5 false (fun n => n), c ∈ alphabet false) :=
  ⟨by decide, c3_random_string_length_alphabet 5 (by decide) false (fun n => n)⟩

/-- C4: the token signer builds a payload whose `role` is the given role,
whose `iss` is the literal `"supabase"`, whose `iat` is the current Unix time
(`now`), whose `exp` is `iat + exp_hours*3600` (604800 seconds for the
default 168 hours), and the token is the three-part dot-separated base64url
compact serialization signed with HMAC-SHA256 over `header.payload` with the
given secret. -/
theorem c4_jwt_payload_and_compact_serialization (secret role : List Char)
    (exp_hours now : Int) :
    (generate_jwt_payload role exp_hours now).role = role ∧
    (generate_jwt_payload role exp_hours now).iss = chars "supabase" ∧
    (generate_jwt_payload role exp_hours now).iat = now ∧
    (generate_jwt_payload role exp_hours now).exp = now + exp_hours * 3600 ∧
    (generate_jwt_payload role 168 now).exp = now + 604800 ∧
    generate_jwt secret role exp_hours now =
      jwtSigningInput (generate_jwt_payload role exp_hours now) ++ '.' ::
        base64urlEncode (hmacSha256 (utf8 secret)
          (utf8 (jwtSigningInput (generate_jwt_payload role exp_hours now)))) ∧
    splitOnChar '.' (generate_jwt secret role exp_hours now) =
      [base64urlEncode (utf8 headerJson),
       base64urlEncode (utf8 (payloadJson (generate_jwt_payload role exp_hours now))),
       base64urlEncode (hmacSha256 (utf8 secret)
         (utf8 (jwtSigningInput (generate_jwt_payload role exp_hours now))))] := by
  refine ⟨rfl, rfl, rfl, rfl, ?_, rfl, ?_⟩
  · show now + 168 * 3600 = now + 604800
    norm_num
  · rw [generate_jwt, jwtEncode, jwtSigningInput, List.append_assoc,
      List.cons_append]
    rw [splitOnChar_append '.' _ _ (dot_not_mem_base64 _)]
    rw [splitOnChar_append '.' _ _ (dot_not_mem_base64 _)]
    rw [splitOnChar_of_not_mem '.' _ (dot_not_mem_base64 _)]

/-- C5: in the value mapping, `JWT_SECRET` is the secret generated by the
first random draw (line 36, before any token is signed), and that same value
is the signing secret of both `ANON_KEY` (role `"anon"`) and
`SERVICE_ROLE_KEY` (role `"service_role"`). -/
theorem c5_jwt_secret_generated_once_and_reused (now : Int) (r : Nat → Nat → Nat) :
    (generate_env_values now r).lookup (chars "JWT_SECRET") =
      some (generate_jwt_secret 40 (r 0)) ∧
    (generate_env_values now r).lookup (chars "ANON_KEY") =
      some (generate_jwt (generate_jwt_secret 40 (r 0)) (chars "anon") 168 now) ∧
    (generate_env_values now r).lookup (chars "SERVICE_ROLE_KEY") =
      some (generate_jwt (generate_jwt_secret 40 (r 0)) (chars "service_role") 168 now) :=
  ⟨rfl, rfl, rfl⟩

/-- C6: when the template file does not exist, `create_env_file` fails with
exactly the file-not-found error kind (line 73), and since the result is an
error, no output lines are produced — the output file is never written. -/
theorem c6_missing_template_file_not_found
    (env_values : List (List Char × List Char)) :
    create_env_file none env_values = .error .fileNotFound := rfl

/-- C7 counterexample: the claim says the generator fails fast with an
invalid-argument error for non-positive lengths, but the code's
`range(length)` is simply empty there, so the call returns the empty string
and raises nothing. -/
theorem c7_counterexample :
    generate_random_string (-1) true (fun _ => 0) = [] ∧
    generate_random_string 0 false (fun _ => 0) = [] := by
  decide

/-- C7 as amended: for every non-positive length the generator returns the
empty string instead of raising an error. -/
theorem c7_nonpositive_length_empty_string (length : Int) (h : length ≤ 0)
    (include_special : Bool) (r : Nat → Nat) :
    generate_random_string length include_special r = [] := by
  rw [generate_random_string, Int.toNat_of_nonpos h]
  rfl

/-- Witness for the amended C7 at a concrete input. -/
theorem c7_witness :
    (-5 : Int) ≤ 0 ∧ generate_random_string (-5) true (fun n => n) = [] :=
  ⟨by decide, c7_nonpositive_length_empty_string (-5) (by decide) true (fun n => n)⟩

/-- C8 counterexample: the claim says a non-empty, non-comment, unmatched
line passes through identically, including surrounding whitespace; but every
line is stripped first, so a line with surrounding whitespace is changed. -/
theorem c8_counterexample :
    (chars "  BAZ=ok  " ≠ [] ∧ (chars "  BAZ=ok  ").head? ≠ some '#' ∧
      ∀ kv ∈ [(chars "FOO", chars "new1")],
        ((kv.1 ++ ['=']).isPrefixOf (chars "  BAZ=ok  ")) = false) ∧
    processLine [(chars "FOO", chars "new1")] (chars "  BAZ=ok  ") ≠
      chars "  BAZ=ok  " := by
  refine ⟨⟨by decide, by decide, by decide⟩, by decide⟩

/-- C8 as amended: a line that (after stripping) is non-empty, is not a
comment, and begins with `<key>=` for no key of the mapping is passed
through as its whitespace-stripped self — identical to the input character
for character exactly when the input has no surrounding whitespace. -/
theorem c8_unmatched_line_stripped_passthrough
    (env_values : List (List Char × List Char)) (line : List Char)
    (h1 : pyStrip line ≠ [])
    (h2 : (pyStrip line).head? ≠ some '#')
    (h3 : ∀ kv ∈ env_values,
      ((kv.1 ++ ['=']).isPrefixOf (pyStrip line)) = false) :
    processLine env_values line = pyStrip line := by
  rw [processLine, if_neg (not_or.mpr ⟨h1, h2⟩)]
  have hf : env_values.find?
      (fun kv => (kv.1 ++ ['=']).isPrefixOf (pyStrip line)) = none := by
    rw [List.find?_eq_none]
    intro kv hkv
    simp [h3 kv hkv]
  rw [hf]

/-- Witness for the amended C8 at a concrete input. -/
theorem c8_witness :
    (pyStrip (chars " BAZ=ok ") ≠ [] ∧
      (pyStrip (chars " BAZ=ok ")).head? ≠ some '#' ∧
      ∀ kv ∈ [(chars "FOO", chars "x")],
        ((kv.1 ++ ['=']).isPrefixOf (pyStrip (chars " BAZ=ok "))) = false) ∧
    processLine [(chars "FOO", chars "x")] (chars " BAZ=ok ") =
      pyStrip (chars " BAZ=ok ") :=
  ⟨⟨by decide, by decide, by decide⟩,
    c8_unmatched_line_stripped_passthrough _ _ (by decide) (by decide) (by decide)⟩

/-- C9: every line written to the output file — matched, unmatched, comment,
or blank — has no leading and no trailing whitespace: input lines are
stripped before the comment check and key matching, and all values of the
generated mapping are themselves whitespace-free, so replaced lines are
stripped too. -/
theorem c9_output_lines_whitespace_stripped (now : Int) (r : Nat → Nat → Nat)
    (template : List (List Char)) (out_lines : List (List Char))
    (h : create_env_file (some template) (generate_env_values now r) =
      .ok out_lines) :
    ∀ out ∈ out_lines, pyStrip out = out := by
  intro out hout
  have he : out_lines = template.map (processLine (generate_env_values now r)) := by
    have := h.symm
    rwa [create_env_file, Except.ok.injEq] at this
  subst he
  rw [List.mem_map] at hout
  obtain ⟨line, _, rfl⟩ := hout
  exact processLine_stripped _ line (generate_env_values_stripped now r)

/-- Witness for C9 at a concrete input (a template consisting of one blank
line). -/
theorem c9_witness :
    create_env_file (some [[]]) (generate_env_values 0 (fun _ _ => 0)) =
      .ok [[]] ∧
    ([] : List Char) ∈ [([] : List Char)] ∧ pyStrip ([] : List Char) = [] :=
  ⟨rfl, by decide,
    c9_output_lines_whitespace_stripped 0 (fun _ _ => 0) [[]] [[]] rfl [] (by decide)⟩

/-- C10: template substitution preserves line count: for an existing
template the output is the per-line image of the template, so exactly as
many lines are written as were read; lines are only replaced in place. -/
theorem c10_line_count_preserved (template : List (List Char))
    (env_values : List (List Char × List Char)) :
    create_env_file (some template) env_values =
      .ok (template.map (processLine env_values)) ∧
    (template.map (processLine env_values)).length = template.length :=
  ⟨rfl, by simp⟩
